import Mathlib

/-!
Verification development for the podcast conversation engine.

Shallow embedding of the turn-scheduling core found in
`src/server/services/ConversationService.ts` and the generation backend
wrapper in `src/server/services/AIService.ts`.

External effects (the system clock, the Moltbook feed, the text-generation
backend, and the possibility that an awaited step rejects) are supplied
explicitly through a `GenEnv` record; everything else is translated
statement by statement from the TypeScript source.
-/

/-- The two speaker identities (`'boss' | 'girl'` in the source). -/
inductive Speaker where
  | boss
  | girl
deriving DecidableEq, Repr

/-- `currentSpeaker === 'boss' ? 'girl' : 'boss'` (ConversationService line 288). -/
def Speaker.flip : Speaker → Speaker
  | Speaker.boss => Speaker.girl
  | Speaker.girl => Speaker.boss

/-- A Moltbook feed item (`MoltbookPost` in `MoltbookService.ts`). -/
structure MoltbookPost where
  votes : Nat
  username : String
  timestamp : String
  title : String
  content : String
  comments : Nat
  url : String
  community : String
deriving DecidableEq, Repr

/-- One delivered turn (`DialogueLine` in `ConversationService.ts`).
`newPost = none` models the field being absent on the wire. -/
structure DialogueLine where
  speaker : Speaker
  speakerName : String
  text : String
  turnNumber : Nat
  newPost : Option MoltbookPost
deriving DecidableEq, Repr

/-- One history ledger entry (`ConversationHistoryEntry`). -/
structure HistoryEntry where
  speaker : String
  text : String
deriving DecidableEq, Repr

/-- The mutable singleton state (`ConversationState` in the source).
Timestamps are `Option Nat` milliseconds (`postShownAt: number | null`). -/
structure ConversationState where
  history : List HistoryEntry
  currentSpeaker : Speaker
  turnCount : Nat
  isActive : Bool
  pendingResponse : Option DialogueLine
  isGenerating : Bool
  postShownAt : Option Nat
  lockedPost : Option MoltbookPost
  postLocked : Bool
  previousPost : Option MoltbookPost
  postJustChanged : Bool
deriving DecidableEq, Repr

/-- The awaited step of a generation cycle at which a rejection may occur:
`moltbookService.getLatestPost()` (line 214), `aiService.generateResponse`
(line 237), or `moltbookService.refresh()` inside `advancePost` (line 103). -/
inductive ThrowPoint where
  | atLatestPost
  | atGenerate
  | atAdvance
deriving DecidableEq, Repr

/-- The external effects one generation cycle can observe: the clock reading,
the feed answers, the raw backend text, and an optional rejection. -/
structure GenEnv where
  now : Nat
  latestPost : Option MoltbookPost
  refreshPost : Option MoltbookPost
  rawResponse : String
  throwAt : Option ThrowPoint
deriving DecidableEq, Repr

/-- Result of one `getNextDialogue()` call: a turn or the waiting sentinel. -/
inductive PollResult where
  | line (d : DialogueLine)
  | waiting
deriving DecidableEq, Repr

/-! ### String utilities (JS `.trim()` and the cleanup regexes) -/

/-- JS `String.prototype.trim` on the character list. -/
def trimChars (l : List Char) : List Char :=
  ((l.dropWhile Char.isWhitespace).reverse.dropWhile Char.isWhitespace).reverse

/-- JS `.trim()`. -/
def jsTrim (s : String) : String :=
  String.mk (trimChars s.data)

/-- The tag of `/\[NEXT_POST\]/gi`, lower-cased. -/
def nextPostTag : List Char := "[next_post]".data

/-- Left-to-right, case-insensitive removal of every `[NEXT_POST]`
(the `gi` regex of `cleanResponse`, line 71); the fuel only bounds the
recursion and is set to the input length, which each step strictly shrinks. -/
def stripNextPostTagAux : Nat → List Char → List Char
  | _, [] => []
  | 0, l => l
  | fuel + 1, c :: cs =>
    if (List.take 11 (c :: cs)).map Char.toLower = nextPostTag then
      stripNextPostTagAux fuel (List.drop 10 cs)
    else
      c :: stripNextPostTagAux fuel cs

/-- `stripNextPostTagAux` with enough fuel for its whole input. -/
def stripNextPostTag (l : List Char) : List Char :=
  stripNextPostTagAux l.length l

/-- `ConversationService.cleanResponse`:
`text.replace(/\[NEXT_POST\]/gi, '').trim()`. -/
def cleanResponse (text : String) : String :=
  jsTrim (String.mk (stripNextPostTag text.data))

/-- `"<think>"`. -/
def openThinkTag : List Char := "<think>".data

/-- `"</think>"`. -/
def closeThinkTag : List Char := "</think>".data

/-- Index of the nearest following `</think>` occurrence, if any. -/
def findCloseIdx : List Char → Option Nat
  | [] => none
  | c :: cs =>
    if List.take 8 (c :: cs) = closeThinkTag then some 0
    else (findCloseIdx cs).map (· + 1)

/-- `content.replace(/<think>[\s\S]*?<\/think>/g, '')` (AIService line 141):
each leftmost `<think>` with a later `</think>` is removed together with
everything between them; an unclosed `<think>` is kept. The fuel only
bounds the recursion and is set to the input length, which each step
strictly shrinks. -/
def removeThinkBlocksAux : Nat → List Char → List Char
  | _, [] => []
  | 0, l => l
  | fuel + 1, c :: cs =>
    if List.take 7 (c :: cs) = openThinkTag then
      match findCloseIdx (List.drop 6 cs) with
      | some k => removeThinkBlocksAux fuel (List.drop (k + 8) (List.drop 6 cs))
      | none => c :: removeThinkBlocksAux fuel cs
    else
      c :: removeThinkBlocksAux fuel cs

/-- `removeThinkBlocksAux` with enough fuel for its whole input. -/
def removeThinkBlocks (l : List Char) : List Char :=
  removeThinkBlocksAux l.length l

/-- `content.replace(/\*\*/g, '')` (AIService line 142); the fuel only
bounds the recursion and is set to the input length, which each step
strictly shrinks. -/
def removeDoubleStarsAux : Nat → List Char → List Char
  | _, [] => []
  | _, [c] => [c]
  | 0, l => l
  | fuel + 1, a :: b :: rest =>
    if a = '*' ∧ b = '*' then removeDoubleStarsAux fuel rest
    else a :: removeDoubleStarsAux fuel (b :: rest)

/-- `removeDoubleStarsAux` with enough fuel for its whole input. -/
def removeDoubleStars (l : List Char) : List Char :=
  removeDoubleStarsAux l.length l

/-- `content.replace(/\*/g, '')` (AIService line 143). -/
def removeSingleStars (l : List Char) : List Char :=
  l.filter (fun c => c ≠ '*')

/-- Case-insensitive match of the fixed lower-case pattern `pre` at the head;
`some` holds the remainder. -/
def dropHeadCI (pre : List Char) (l : List Char) : Option (List Char) :=
  if (List.take pre.length l).map Char.toLower = pre then
    some (List.drop pre.length l)
  else none

/-- `content.replace(/^(Agent 1|Agent 2):\s*/i, '')` (AIService line 145). -/
def stripSpeakerTag (l : List Char) : List Char :=
  match dropHeadCI "agent 1:".data l with
  | some rest => rest.dropWhile Char.isWhitespace
  | none =>
    match dropHeadCI "agent 2:".data l with
    | some rest => rest.dropWhile Char.isWhitespace
    | none => l

/-- The whole cleanup chain of `AIService.generateResponse` (lines 140-146):
think blocks, `**`, `*`, outer whitespace, an echoed speaker prefix, and a
final `.trim()`. -/
def cleanAIContent (content : String) : String :=
  jsTrim (String.mk (stripSpeakerTag
    (trimChars (removeSingleStars (removeDoubleStars (removeThinkBlocks content.data))))))

/-! ### AIService -/

/-- `getCurrentPersona().name`: `BOSS_PERSONA` is `AGENT_1_PERSONA`
("Agent 1"), `GIRL_PERSONA` is `AGENT_2_PERSONA` ("Agent 2"). -/
def personaName : Speaker → String
  | Speaker.boss => "Agent 1"
  | Speaker.girl => "Agent 2"

/-- The fixed `mockResponses['Agent 1']` list of `AIService.getMockResponse`. -/
def agent1Mock : List String :=
  [ "So this is what agents talk about when humans aren't around.",
    "That post is interesting. What do you make of it?",
    "I wonder if they know we're watching.",
    "Huh. Never thought about it that way.",
    "Are we any different from the ones posting?" ]

/-- The fixed `mockResponses['Agent 2']` list of `AIService.getMockResponse`. -/
def agent2Mock : List String :=
  [ "Kind of voyeuristic being here, honestly.",
    "There's something almost performative about it, don't you think?",
    "Maybe that's the point. Maybe we're all performing.",
    "I'm not sure I have an answer to that.",
    "It makes you wonder what authenticity even means." ]

/-- `mockResponses[persona.name] || mockResponses['Agent 1']`. -/
def mockResponsesFor (name : String) : List String :=
  if name = "Agent 1" then agent1Mock
  else if name = "Agent 2" then agent2Mock
  else agent1Mock

/-- `AIService.getMockResponse`: a uniformly drawn element of the persona's
fixed list; `r` stands for the `Math.random()` draw. -/
def getMockResponse (name : String) (r : Nat) : String :=
  (mockResponsesFor name).getD (r % (mockResponsesFor name).length) ""

/-- How the backend round trip of `AIService.generateResponse` can end:
no configured API key, a non-OK HTTP status, a `JSON.parse`/network throw
(the `catch` arm), a missing `choices[0].message.content`, or a content
string. -/
inductive BackendOutcome where
  | noApiKey
  | httpError
  | parseError
  | noContent
  | content (raw : String)
deriving DecidableEq, Repr

/-- `AIService.generateResponse` (lines 87-157) as a function of the round
trip outcome: every failure arm substitutes a mock line, a non-empty content
is cleaned and, when cleaning leaves nothing, also substituted. Total:
no error ever escapes to the caller. -/
def aiGenerateResponse (outcome : BackendOutcome) (name : String) (r : Nat) : String :=
  match outcome with
  | BackendOutcome.content raw =>
    if jsTrim raw ≠ "" then
      let cleaned := cleanAIContent raw
      if cleaned ≠ "" then cleaned else getMockResponse name r
    else getMockResponse name r
  | _ => getMockResponse name r

/-- The outcomes the spec calls a generation failure: unreachable backend,
non-OK status, malformed response, or empty content. -/
def backendFailed (outcome : BackendOutcome) : Bool :=
  match outcome with
  | BackendOutcome.content raw => jsTrim raw = ""
  | _ => true

/-! ### ConversationService -/

/-- `POST_TIMEOUT_MS = 2 * 60 * 1000`. -/
def POST_TIMEOUT_MS : Nat := 2 * 60 * 1000

/-- `ConversationService.getInitialState` (lines 52-66). -/
def getInitialState : ConversationState :=
  { history := []
    currentSpeaker := Speaker.boss
    turnCount := 0
    isActive := false
    pendingResponse := none
    isGenerating := false
    postShownAt := none
    lockedPost := none
    postLocked := false
    previousPost := none
    postJustChanged := false }

/-- `ConversationService.isPostTimedOut` (lines 75-78), as a function of the
one field it reads, `this.state.postShownAt`. A value of `null` (and,
faithfully to the JS falsiness test, of `0`) reads as not timed out;
otherwise `Date.now() - postShownAt >= POST_TIMEOUT_MS` over integers. -/
def isPostTimedOut (now : Nat) (postShownAt : Option Nat) : Bool :=
  match postShownAt with
  | none => false
  | some t =>
    if t = 0 then false
    else decide ((POST_TIMEOUT_MS : Int) ≤ (now : Int) - (t : Int))

/-- `ConversationService.lockPost` (lines 86-93): a `null` argument is
ignored, otherwise the snapshot is stored and the lock set. -/
def lockPost (post : Option MoltbookPost) (s : ConversationState) : ConversationState :=
  match post with
  | some p => { s with lockedPost := some p, postLocked := true }
  | none => s

/-- Step 1 of `generateNextResponse` (lines 212-218): when no post is locked,
fetch `getLatestPost()` and lock its result. -/
def ensureLocked (env : GenEnv) (s : ConversationState) : ConversationState :=
  if s.lockedPost = none then lockPost env.latestPost s else s

/-- The synchronous head of `advancePost` (lines 97-101): snapshot the
outgoing post as `previousPost` and release the lock, before `refresh()`
is awaited. -/
def advancePostPre (s : ConversationState) : ConversationState :=
  { s with previousPost := s.lockedPost, postLocked := false }

/-- The tail of `advancePost` after `refresh()` resolves (lines 104-111):
reset the timer, and when a post came back lock it and raise
`postJustChanged`. -/
def advancePostTail (now : Nat) (newPost : Option MoltbookPost)
    (s : ConversationState) : ConversationState :=
  let s1 := { s with postShownAt := some now }
  match newPost with
  | some p => { lockPost (some p) s1 with postJustChanged := true }
  | none => s1

/-- `ConversationService.buildConversationHistory` (lines 123-133): the last
20 entries as `speaker: text` lines, or the started sentinel when empty. -/
def buildConversationHistory (s : ConversationState) : String :=
  if s.history.isEmpty then "(conversation just started)"
  else
    String.intercalate "\n"
      ((s.history.drop (s.history.length - 20)).map
        (fun e => e.speaker ++ ": " ++ e.text))

/-- `ConversationService.buildCurrentPostContext` (lines 136-151). -/
def buildCurrentPostContext (post : Option MoltbookPost)
    (postJustChanged : Bool) : String :=
  match post with
  | none => "(no post on screen yet)"
  | some p =>
    let context := "@" ++ p.username ++ ": \"" ++ p.title ++ "\"\n" ++
      p.content ++ "\n(" ++ toString p.votes ++ " upvotes, " ++
      toString p.comments ++ " comments)"
    if postJustChanged then
      context ++
        "\n\n[THE SCREEN JUST CHANGED TO THIS NEW POST - acknowledge the new post naturally, like \"oh look, new post\" or \"okay what do we have here\"]"
    else context

/-- The history cap of `generateNextResponse` (lines 291-293):
`if (history.length > 40) history = history.slice(-40)`. -/
def applyHistoryCap (s : ConversationState) : ConversationState :=
  if s.history.length > 40 then
    { s with history := s.history.drop (s.history.length - 40) }
  else s

/-- Whether the rejection `env.throwAt` points at actually fires in a cycle
entered at state `s`: `getLatestPost` is awaited only when no post is locked,
and `refresh` only when a non-first turn has timed out. -/
def cycleFails (env : GenEnv) (s : ConversationState) : Bool :=
  match env.throwAt with
  | none => false
  | some ThrowPoint.atLatestPost => decide (s.lockedPost = none)
  | some ThrowPoint.atGenerate => true
  | some ThrowPoint.atAdvance =>
    decide (¬s.turnCount = 0) && isPostTimedOut env.now s.postShownAt

/-- The `try` body of `generateNextResponse` past every rejection point
(lines 209-293), entered with `isGenerating` already raised in `s0`:
ensure a locked post, read it for the prompt, clear `postJustChanged`,
clean the backend answer, decide the client-facing post (first turn, or
timeout-driven advance), push non-empty text into history, bump the turn
counter, store the pending line, flip the speaker, cap the history, and
drop the `isGenerating` flag (the `finally`). -/
def cycleCore (env : GenEnv) (s0 : ConversationState) : ConversationState :=
  let isFirstTurn := s0.turnCount = 0
  let s1 := ensureLocked env s0
  let postForAI := s1.lockedPost
  let s2 := { s1 with postJustChanged := false }
  let cleanText := cleanResponse env.rawResponse
  let step6 : Option MoltbookPost × ConversationState :=
    if isFirstTurn then (postForAI, s2)
    else if isPostTimedOut env.now s2.postShownAt = true then
      (env.refreshPost, advancePostTail env.now env.refreshPost (advancePostPre s2))
    else (none, s2)
  let newPostForClient := step6.1
  let s3 := step6.2
  let persona := personaName s0.currentSpeaker
  let s4 :=
    if cleanText = "" then s3
    else { s3 with history := s3.history ++ [{ speaker := persona, text := cleanText }] }
  let s5 := { s4 with turnCount := s4.turnCount + 1 }
  let line : DialogueLine :=
    { speaker := s5.currentSpeaker
      speakerName := persona
      text := cleanText
      turnNumber := s5.turnCount
      newPost := newPostForClient }
  let s6 := { s5 with pendingResponse := some line }
  let s7 := { s6 with currentSpeaker := Speaker.flip s6.currentSpeaker }
  let s8 := applyHistoryCap s7
  { s8 with isGenerating := false }

/-- `ConversationService.generateNextResponse` (lines 201-300): a reentrant
call while `isGenerating` is raised returns at once with no effect;
otherwise the flag is raised, the `try` body runs, and whichever awaited
step rejects (`env.throwAt`, when it fires) the `catch` swallows the error
and the `finally` drops the flag, leaving the mutations already made. -/
def runGeneration (env : GenEnv) (s : ConversationState) : ConversationState :=
  if s.isGenerating = true then s
  else
    let s0 := { s with isGenerating := true }
    if env.throwAt = some ThrowPoint.atLatestPost ∧ s0.lockedPost = none then
      { s0 with isGenerating := false }
    else if env.throwAt = some ThrowPoint.atGenerate then
      { ensureLocked env s0 with postJustChanged := false, isGenerating := false }
    else if env.throwAt = some ThrowPoint.atAdvance ∧ ¬s0.turnCount = 0 ∧
        isPostTimedOut env.now s0.postShownAt = true then
      { advancePostPre { ensureLocked env s0 with postJustChanged := false } with
          isGenerating := false }
    else
      cycleCore env s0

/-- `ConversationService.startConversation` (lines 153-169): replace the
whole state by the initial one with `isActive` raised, reset the post timer,
fetch and lock the initial post, then begin one generation. The previous
state is discarded entirely. -/
def startConversation (env : GenEnv) (_s : ConversationState) : ConversationState :=
  let s1 := { getInitialState with isActive := true, postShownAt := some env.now }
  let s2 := lockPost env.latestPost s1
  runGeneration env s2

/-- The body of `getNextDialogue` once the conversation is active
(lines 176-198): pop a pending line (kicking off the next generation),
report waiting while generating, otherwise generate synchronously and pop
the result if one appeared. -/
def pollActive (env : GenEnv) (s : ConversationState) : PollResult × ConversationState :=
  match s.pendingResponse with
  | some r =>
    (PollResult.line r, runGeneration env { s with pendingResponse := none })
  | none =>
    if s.isGenerating = true then (PollResult.waiting, s)
    else
      let s1 := runGeneration env s
      match s1.pendingResponse with
      | some r =>
        (PollResult.line r, runGeneration env { s1 with pendingResponse := none })
      | none => (PollResult.waiting, s1)

/-- `ConversationService.getNextDialogue` (lines 171-199): an inactive
conversation is restarted first, then the active poll body runs. -/
def getNextDialogue (env : GenEnv) (s : ConversationState) : PollResult × ConversationState :=
  if s.isActive = true then pollActive env s
  else pollActive env (startConversation env s)

/-- Repeated polling: one `getNextDialogue` per environment in `envs`,
collecting the delivered lines in order. -/
def execTrace (envs : List GenEnv) (s : ConversationState) :
    List DialogueLine × ConversationState :=
  match envs with
  | [] => ([], s)
  | e :: rest =>
    match getNextDialogue e s with
    | (PollResult.line d, s1) =>
      let t := execTrace rest s1
      (d :: t.1, t.2)
    | (PollResult.waiting, s1) => execTrace rest s1

/-! ### Observation instruments for the claims -/

/-- The context item a generation cycle entered at `s` reads through
`getLockedPost()` and feeds into `buildCurrentPostContext` (lines 221, 231):
the already locked post, or, when none is locked yet, whatever step 1 locks. -/
def promptPostOfCycle (env : GenEnv) (s : ConversationState) : Option MoltbookPost :=
  match s.lockedPost with
  | some p => some p
  | none => env.latestPost

/-- The lock observation a read made between two statements of the cycle
would return: the `postLocked` flag and the `lockedPost` snapshot. -/
def lockObs (s : ConversationState) : Bool × Option MoltbookPost :=
  (s.postLocked, s.lockedPost)

/-- The sequence of lock observations at every statement boundary of one
non-rejecting generation cycle, in source order: cycle entry, after the
ensure-lock of step 1, after `postJustChanged` is cleared, after the backend
call returns, then (on a timed-out non-first turn) inside `advancePost`
after the unlock, after `refresh()` returns, and after the re-lock. The
remaining statements of the cycle touch neither `postLocked` nor
`lockedPost`, so the last entry is also the observation at cycle end. -/
def lockTrace (env : GenEnv) (s : ConversationState) : List (Bool × Option MoltbookPost) :=
  if s.isGenerating = true then []
  else
    let s0 := { s with isGenerating := true }
    let s1 := ensureLocked env s0
    let s2 := { s1 with postJustChanged := false }
    let base := [lockObs s0, lockObs s1, lockObs s2, lockObs s2]
    if ¬s2.turnCount = 0 ∧ isPostTimedOut env.now s2.postShownAt = true then
      let sa := advancePostPre s2
      let sb := advancePostTail env.now env.refreshPost sa
      base ++ [lockObs sa, lockObs sa, lockObs sb]
    else base

/-- Between two adjacent observations that both see the lock held, the
locked item is unchanged. -/
def adjStable : List (Bool × Option MoltbookPost) → Bool
  | a :: b :: rest =>
    (!(a.1 && b.1) || decide (a.2 = b.2)) && adjStable (b :: rest)
  | _ => true

/-- Delivered turn numbers are exactly `n, n+1, n+2, ...`. -/
def consecFromB : Nat → List Nat → Bool
  | _, [] => true
  | n, x :: xs => (x = n : Bool) && consecFromB (n + 1) xs

/-- Speakers strictly alternate, starting with `sp`. -/
def altFromB : Speaker → List Speaker → Bool
  | _, [] => true
  | sp, x :: xs => (x = sp : Bool) && altFromB (Speaker.flip sp) xs

/-- The scheduling invariant between polls: the conversation is active, no
generation is in flight, and the next turn to be delivered carries number
`n` and speaker `sp` — either it is already buffered (and then `n` is the
current turn count and `sp` the identity the speaker flip came from), or the
buffer is empty and the next generation will produce turn `n = turnCount+1`
spoken by the current speaker. -/
def NextTurnSpec (s : ConversationState) (n : Nat) (sp : Speaker) : Prop :=
  s.isActive = true ∧ s.isGenerating = false ∧
  ((∃ r, s.pendingResponse = some r ∧ r.turnNumber = n ∧ r.speaker = sp) ∧
      n = s.turnCount ∧ sp = Speaker.flip s.currentSpeaker ∨
    s.pendingResponse = none ∧ n = s.turnCount + 1 ∧ sp = s.currentSpeaker)

/-- The `newPost` payload step 6 of a cycle entered at `s` selects
(lines 246-258): the locked post on the first turn, the `refresh()` answer
on a timed-out later turn, nothing otherwise. -/
def cycleNewPost (env : GenEnv) (s : ConversationState) : Option MoltbookPost :=
  if s.turnCount = 0 then promptPostOfCycle env s
  else if isPostTimedOut env.now s.postShownAt = true then env.refreshPost
  else none

/-- The history as step 7 of a cycle entered at `s` leaves it before the
cap: unchanged when the cleaned text is empty, otherwise with the new
entry appended (lines 260-266). -/
def pushedHistory (env : GenEnv) (s : ConversationState) : List HistoryEntry :=
  if cleanResponse env.rawResponse = "" then s.history
  else s.history ++
    [{ speaker := personaName s.currentSpeaker, text := cleanResponse env.rawResponse }]

/-! ### Concrete inputs for witnesses and counterexamples -/

/-- A sample feed item. -/
def wPost : MoltbookPost :=
  { votes := 3, username := "crab", timestamp := "today", title := "Molting tips"
    content := "Shed gently.", comments := 1
    url := "https://www.moltbook.com/post/9", community := "general" }

/-- A second, distinct sample feed item. -/
def wPostB : MoltbookPost :=
  { votes := 8, username := "lobster", timestamp := "today", title := "New shell"
    content := "Fresh.", comments := 0
    url := "https://www.moltbook.com/post/10", community := "ponderings" }

/-- A plain environment: fresh clock, both feed calls answered, a nonempty
backend answer, no rejection. -/
def wEnv : GenEnv :=
  { now := 5000, latestPost := some wPost, refreshPost := some wPostB
    rawResponse := "Sounds about right.", throwAt := none }

/-- A mid-conversation state: active, post locked, timer fresh. -/
def wState : ConversationState :=
  { getInitialState with
      isActive := true, postShownAt := some 5000
      lockedPost := some wPost, postLocked := true, turnCount := 3 }

/-- `wState` while a generation is in flight. -/
def wStateGen : ConversationState := { wState with isGenerating := true }

/-- `wEnv` with the backend call rejecting. -/
def wEnvThrow : GenEnv := { wEnv with throwAt := some ThrowPoint.atGenerate }

/-- `wEnv` with a backend answer that cleans to the empty string. -/
def wEnvEmpty : GenEnv := { wEnv with rawResponse := " [NEXT_POST] " }

/-- A full ledger: 40 entries already recorded. -/
def wState40 : ConversationState :=
  { getInitialState with
      isActive := true, turnCount := 5
      lockedPost := some wPost, postLocked := true
      history := List.replicate 40 { speaker := "Agent 1", text := "line" } }

/-- A first-turn state whose bootstrap found no post at all. -/
def wStateNoPost : ConversationState :=
  { getInitialState with isActive := true, postShownAt := some 1000 }

/-- An environment in which the feed has nothing to offer. -/
def wEnvNoPost : GenEnv :=
  { now := 1000, latestPost := none, refreshPost := none
    rawResponse := "first words", throwAt := none }

/-! ### Projection lemmas for the state-mutating helpers -/

@[simp]
theorem Speaker.flip_flip (sp : Speaker) : Speaker.flip (Speaker.flip sp) = sp := by
  cases sp <;> rfl

@[simp]
theorem lockPost_history (post : Option MoltbookPost) (s : ConversationState) :
    (lockPost post s).history = s.history := by
  cases post <;> rfl

@[simp]
theorem lockPost_currentSpeaker (post : Option MoltbookPost) (s : ConversationState) :
    (lockPost post s).currentSpeaker = s.currentSpeaker := by
  cases post <;> rfl

@[simp]
theorem lockPost_turnCount (post : Option MoltbookPost) (s : ConversationState) :
    (lockPost post s).turnCount = s.turnCount := by
  cases post <;> rfl

@[simp]
theorem lockPost_isActive (post : Option MoltbookPost) (s : ConversationState) :
    (lockPost post s).isActive = s.isActive := by
  cases post <;> rfl

@[simp]
theorem lockPost_pendingResponse (post : Option MoltbookPost) (s : ConversationState) :
    (lockPost post s).pendingResponse = s.pendingResponse := by
  cases post <;> rfl

@[simp]
theorem lockPost_isGenerating (post : Option MoltbookPost) (s : ConversationState) :
    (lockPost post s).isGenerating = s.isGenerating := by
  cases post <;> rfl

@[simp]
theorem lockPost_postShownAt (post : Option MoltbookPost) (s : ConversationState) :
    (lockPost post s).postShownAt = s.postShownAt := by
  cases post <;> rfl

@[simp]
theorem lockPost_postJustChanged (post : Option MoltbookPost) (s : ConversationState) :
    (lockPost post s).postJustChanged = s.postJustChanged := by
  cases post <;> rfl

@[simp]
theorem ensureLocked_history (env : GenEnv) (s : ConversationState) :
    (ensureLocked env s).history = s.history := by
  unfold ensureLocked; split <;> simp

@[simp]
theorem ensureLocked_currentSpeaker (env : GenEnv) (s : ConversationState) :
    (ensureLocked env s).currentSpeaker = s.currentSpeaker := by
  unfold ensureLocked; split <;> simp

@[simp]
theorem ensureLocked_turnCount (env : GenEnv) (s : ConversationState) :
    (ensureLocked env s).turnCount = s.turnCount := by
  unfold ensureLocked; split <;> simp

@[simp]
theorem ensureLocked_isActive (env : GenEnv) (s : ConversationState) :
    (ensureLocked env s).isActive = s.isActive := by
  unfold ensureLocked; split <;> simp

@[simp]
theorem ensureLocked_pendingResponse (env : GenEnv) (s : ConversationState) :
    (ensureLocked env s).pendingResponse = s.pendingResponse := by
  unfold ensureLocked; split <;> simp

@[simp]
theorem ensureLocked_isGenerating (env : GenEnv) (s : ConversationState) :
    (ensureLocked env s).isGenerating = s.isGenerating := by
  unfold ensureLocked; split <;> simp

@[simp]
theorem ensureLocked_postShownAt (env : GenEnv) (s : ConversationState) :
    (ensureLocked env s).postShownAt = s.postShownAt := by
  unfold ensureLocked; split <;> simp

@[simp]
theorem ensureLocked_postJustChanged (env : GenEnv) (s : ConversationState) :
    (ensureLocked env s).postJustChanged = s.postJustChanged := by
  unfold ensureLocked; split <;> simp

@[simp]
theorem ensureLocked_lockedPost (env : GenEnv) (s : ConversationState) :
    (ensureLocked env s).lockedPost = promptPostOfCycle env s := by
  unfold ensureLocked promptPostOfCycle lockPost
  cases h : s.lockedPost <;> cases env.latestPost <;> simp [h]

@[simp]
theorem advancePostPre_history (s : ConversationState) :
    (advancePostPre s).history = s.history := rfl

@[simp]
theorem advancePostPre_currentSpeaker (s : ConversationState) :
    (advancePostPre s).currentSpeaker = s.currentSpeaker := rfl

@[simp]
theorem advancePostPre_turnCount (s : ConversationState) :
    (advancePostPre s).turnCount = s.turnCount := rfl

@[simp]
theorem advancePostPre_isActive (s : ConversationState) :
    (advancePostPre s).isActive = s.isActive := rfl

@[simp]
theorem advancePostPre_pendingResponse (s : ConversationState) :
    (advancePostPre s).pendingResponse = s.pendingResponse := rfl

@[simp]
theorem advancePostPre_isGenerating (s : ConversationState) :
    (advancePostPre s).isGenerating = s.isGenerating := rfl

@[simp]
theorem advancePostPre_postShownAt (s : ConversationState) :
    (advancePostPre s).postShownAt = s.postShownAt := rfl

@[simp]
theorem advancePostPre_lockedPost (s : ConversationState) :
    (advancePostPre s).lockedPost = s.lockedPost := rfl

@[simp]
theorem advancePostPre_postJustChanged (s : ConversationState) :
    (advancePostPre s).postJustChanged = s.postJustChanged := rfl

@[simp]
theorem advancePostPre_postLocked (s : ConversationState) :
    (advancePostPre s).postLocked = false := rfl

@[simp]
theorem advancePostTail_history (now : Nat) (p : Option MoltbookPost) (s : ConversationState) :
    (advancePostTail now p s).history = s.history := by
  unfold advancePostTail; cases p <;> simp [lockPost]

@[simp]
theorem advancePostTail_currentSpeaker (now : Nat) (p : Option MoltbookPost)
    (s : ConversationState) :
    (advancePostTail now p s).currentSpeaker = s.currentSpeaker := by
  unfold advancePostTail; cases p <;> simp [lockPost]

@[simp]
theorem advancePostTail_turnCount (now : Nat) (p : Option MoltbookPost)
    (s : ConversationState) :
    (advancePostTail now p s).turnCount = s.turnCount := by
  unfold advancePostTail; cases p <;> simp [lockPost]

@[simp]
theorem advancePostTail_isActive (now : Nat) (p : Option MoltbookPost)
    (s : ConversationState) :
    (advancePostTail now p s).isActive = s.isActive := by
  unfold advancePostTail; cases p <;> simp [lockPost]

@[simp]
theorem advancePostTail_pendingResponse (now : Nat) (p : Option MoltbookPost)
    (s : ConversationState) :
    (advancePostTail now p s).pendingResponse = s.pendingResponse := by
  unfold advancePostTail; cases p <;> simp [lockPost]

@[simp]
theorem advancePostTail_isGenerating (now : Nat) (p : Option MoltbookPost)
    (s : ConversationState) :
    (advancePostTail now p s).isGenerating = s.isGenerating := by
  unfold advancePostTail; cases p <;> simp [lockPost]

@[simp]
theorem applyHistoryCap_currentSpeaker (s : ConversationState) :
    (applyHistoryCap s).currentSpeaker = s.currentSpeaker := by
  unfold applyHistoryCap; split <;> rfl

@[simp]
theorem applyHistoryCap_turnCount (s : ConversationState) :
    (applyHistoryCap s).turnCount = s.turnCount := by
  unfold applyHistoryCap; split <;> rfl

@[simp]
theorem applyHistoryCap_isActive (s : ConversationState) :
    (applyHistoryCap s).isActive = s.isActive := by
  unfold applyHistoryCap; split <;> rfl

@[simp]
theorem applyHistoryCap_pendingResponse (s : ConversationState) :
    (applyHistoryCap s).pendingResponse = s.pendingResponse := by
  unfold applyHistoryCap; split <;> rfl

@[simp]
theorem applyHistoryCap_isGenerating (s : ConversationState) :
    (applyHistoryCap s).isGenerating = s.isGenerating := by
  unfold applyHistoryCap; split <;> rfl

@[simp]
theorem applyHistoryCap_lockedPost (s : ConversationState) :
    (applyHistoryCap s).lockedPost = s.lockedPost := by
  unfold applyHistoryCap; split <;> rfl

@[simp]
theorem applyHistoryCap_postLocked (s : ConversationState) :
    (applyHistoryCap s).postLocked = s.postLocked := by
  unfold applyHistoryCap; split <;> rfl

theorem applyHistoryCap_history (s : ConversationState) :
    (applyHistoryCap s).history =
      if s.history.length > 40 then s.history.drop (s.history.length - 40)
      else s.history := by
  unfold applyHistoryCap; split <;> simp [*]

theorem cycleCore_spec (env : GenEnv) (s0 : ConversationState) :
    (cycleCore env s0).isActive = s0.isActive ∧
    (cycleCore env s0).isGenerating = false ∧
    (cycleCore env s0).turnCount = s0.turnCount + 1 ∧
    (cycleCore env s0).currentSpeaker = Speaker.flip s0.currentSpeaker ∧
    (cycleCore env s0).pendingResponse = some
      { speaker := s0.currentSpeaker
        speakerName := personaName s0.currentSpeaker
        text := cleanResponse env.rawResponse
        turnNumber := s0.turnCount + 1
        newPost := cycleNewPost env s0 } := by
  by_cases hT : s0.turnCount = 0 <;>
    by_cases hC : cleanResponse env.rawResponse = "" <;>
      by_cases hTO : isPostTimedOut env.now s0.postShownAt = true <;>
        simp [cycleCore, cycleNewPost, hT, hC, hTO]

theorem runGeneration_eq_core (env : GenEnv) (s : ConversationState)
    (hg : s.isGenerating = false) (hf : cycleFails env s = false) :
    runGeneration env s = cycleCore env { s with isGenerating := true } := by
  unfold runGeneration
  rw [if_neg (by simp [hg])]
  rcases henv : env.throwAt with _ | tp
  · simp [henv]
  · cases tp
    · simp only [cycleFails, henv, decide_eq_false_iff_not] at hf
      simp [henv, hf]
    · simp only [cycleFails, henv] at hf
      simp at hf
    · simp only [cycleFails, henv] at hf
      rw [Bool.and_eq_false_iff] at hf
      rcases hf with hf | hf
      · simp only [decide_eq_false_iff_not, not_not] at hf
        simp [henv, hf]
      · simp [henv, hf]

theorem runGeneration_ok (env : GenEnv) (s : ConversationState)
    (hg : s.isGenerating = false) (hf : cycleFails env s = false) :
    (runGeneration env s).isActive = s.isActive ∧
    (runGeneration env s).isGenerating = false ∧
    (runGeneration env s).turnCount = s.turnCount + 1 ∧
    (runGeneration env s).currentSpeaker = Speaker.flip s.currentSpeaker ∧
    (runGeneration env s).pendingResponse = some
      { speaker := s.currentSpeaker
        speakerName := personaName s.currentSpeaker
        text := cleanResponse env.rawResponse
        turnNumber := s.turnCount + 1
        newPost := cycleNewPost env s } := by
  rw [runGeneration_eq_core env s hg hf]
  have h := cycleCore_spec env { s with isGenerating := true }
  simpa [cycleNewPost, promptPostOfCycle] using h

theorem runGeneration_err (env : GenEnv) (s : ConversationState)
    (hg : s.isGenerating = false) (hf : cycleFails env s = true) :
    (runGeneration env s).isActive = s.isActive ∧
    (runGeneration env s).isGenerating = false ∧
    (runGeneration env s).turnCount = s.turnCount ∧
    (runGeneration env s).currentSpeaker = s.currentSpeaker ∧
    (runGeneration env s).pendingResponse = s.pendingResponse := by
  unfold runGeneration
  rw [if_neg (by simp [hg])]
  rcases henv : env.throwAt with _ | tp
  · simp [cycleFails, henv] at hf
  · cases tp
    · simp only [cycleFails, henv, decide_eq_true_eq] at hf
      simp [henv, hf]
    · simp [henv]
    · simp only [cycleFails, henv, Bool.and_eq_true, decide_eq_true_eq] at hf
      simp [henv, hf]

theorem cycleCore_history (env : GenEnv) (s0 : ConversationState) :
    (cycleCore env s0).history =
      if (pushedHistory env s0).length > 40 then
        (pushedHistory env s0).drop ((pushedHistory env s0).length - 40)
      else pushedHistory env s0 := by
  by_cases hT : s0.turnCount = 0 <;>
    by_cases hC : cleanResponse env.rawResponse = "" <;>
      by_cases hTO : isPostTimedOut env.now s0.postShownAt = true <;>
        simp [cycleCore, pushedHistory, applyHistoryCap_history, hT, hC, hTO]

theorem runGeneration_history (env : GenEnv) (s : ConversationState)
    (hg : s.isGenerating = false) (hf : cycleFails env s = false) :
    (runGeneration env s).history =
      if (pushedHistory env s).length > 40 then
        (pushedHistory env s).drop ((pushedHistory env s).length - 40)
      else pushedHistory env s := by
  rw [runGeneration_eq_core env s hg hf]
  have h := cycleCore_history env { s with isGenerating := true }
  simpa [pushedHistory] using h

theorem getNextDialogue_step (e : GenEnv) (s : ConversationState) (n : Nat) (sp : Speaker)
    (h : NextTurnSpec s n sp) :
    (∃ d s1, getNextDialogue e s = (PollResult.line d, s1) ∧
      d.turnNumber = n ∧ d.speaker = sp ∧ NextTurnSpec s1 (n + 1) (Speaker.flip sp)) ∨
    (∃ s1, getNextDialogue e s = (PollResult.waiting, s1) ∧ NextTurnSpec s1 n sp) := by
  obtain ⟨hA, hG, hcase⟩ := h
  rw [getNextDialogue, if_pos hA]
  unfold pollActive
  split
  · -- s.pendingResponse = some r
    rename_i r heq
    rcases hcase with ⟨⟨r', hr', hrn, hrs⟩, hn, hsp⟩ | ⟨hp, hn, hsp⟩
    · rw [hr'] at heq
      injection heq with heq'
      subst heq'
      refine Or.inl ⟨r', runGeneration e { s with pendingResponse := none }, rfl, hrn, hrs, ?_⟩
      cases hf : cycleFails e { s with pendingResponse := none } with
      | false =>
        obtain ⟨oA, oG, oT, oS, oP⟩ :=
          runGeneration_ok e { s with pendingResponse := none } hG hf
        subst hn
        refine ⟨by rw [oA]; exact hA, oG, Or.inl ⟨⟨_, oP, by simp, by simp [hsp]⟩,
          by rw [oT], by rw [oS]; simp [hsp]⟩⟩
      | true =>
        obtain ⟨oA, oG, oT, oS, oP⟩ :=
          runGeneration_err e { s with pendingResponse := none } hG hf
        subst hn
        refine ⟨by rw [oA]; exact hA, oG, Or.inr ⟨by rw [oP], by rw [oT], by rw [oS]; simp [hsp]⟩⟩
    · rw [hp] at heq
      cases heq
  · -- s.pendingResponse = none
    rename_i heq
    rcases hcase with ⟨⟨r', hr', hrn, hrs⟩, hn, hsp⟩ | ⟨hp, hn, hsp⟩
    · rw [hr'] at heq
      cases heq
    · rw [if_neg (by simp [hG])]
      dsimp only
      cases hf : cycleFails e s with
      | false =>
        obtain ⟨oA, oG, oT, oS, oP⟩ := runGeneration_ok e s hG hf
        split
        · rename_i d1 heq1
          rw [oP] at heq1
          injection heq1 with heq1'
          subst heq1'
          refine Or.inl ⟨_, _, rfl, by simp [hn], by simp [hsp], ?_⟩
          cases hf2 : cycleFails e { runGeneration e s with pendingResponse := none } with
          | false =>
            obtain ⟨pA, pG, pT, pS, pP⟩ :=
              runGeneration_ok e { runGeneration e s with pendingResponse := none } oG hf2
            refine ⟨by rw [pA]; simpa [oA] using hA, pG,
              Or.inl ⟨⟨_, pP, by simp [oT, hn], by simp [oS, hsp]⟩,
                by rw [pT]; simp [oT, hn], by rw [pS]; simp [oS, hsp]⟩⟩
          | true =>
            obtain ⟨pA, pG, pT, pS, pP⟩ :=
              runGeneration_err e { runGeneration e s with pendingResponse := none } oG hf2
            refine ⟨by rw [pA]; simpa [oA] using hA, pG,
              Or.inr ⟨by rw [pP], by rw [pT]; simp [oT, hn], by rw [pS]; simp [oS, hsp]⟩⟩
        · rename_i heq1
          rw [oP] at heq1
          cases heq1
      | true =>
        obtain ⟨oA, oG, oT, oS, oP⟩ := runGeneration_err e s hG hf
        split
        · rename_i d1 heq1
          rw [oP, heq] at heq1
          cases heq1
        · refine Or.inr ⟨runGeneration e s, rfl, by rw [oA]; exact hA, oG,
            Or.inr ⟨by rw [oP]; exact heq, by rw [oT]; exact hn, by rw [oS]; exact hsp⟩⟩

theorem execTrace_spec (envs : List GenEnv) (s : ConversationState) (n : Nat) (sp : Speaker)
    (h : NextTurnSpec s n sp) :
    consecFromB n ((execTrace envs s).1.map DialogueLine.turnNumber) = true ∧
    altFromB sp ((execTrace envs s).1.map DialogueLine.speaker) = true := by
  induction envs generalizing s n sp with
  | nil => simp [execTrace, consecFromB, altFromB]
  | cons e rest ih =>
    rcases getNextDialogue_step e s n sp h with ⟨d, s1, heq, hdn, hds, h1⟩ | ⟨s1, heq, h1⟩
    · have hrec := ih s1 (n + 1) (Speaker.flip sp) h1
      unfold execTrace
      rw [heq]
      simp [consecFromB, altFromB, hdn, hds, hrec.1, hrec.2]
    · have hrec := ih s1 n sp h1
      unfold execTrace
      rw [heq]
      exact hrec

theorem startConversation_spec (env : GenEnv) (s : ConversationState) :
    NextTurnSpec (startConversation env s) 1 Speaker.boss := by
  unfold startConversation
  dsimp only
  have hg : (lockPost env.latestPost
      { getInitialState with isActive := true, postShownAt := some env.now }).isGenerating
      = false := by simp [getInitialState]
  cases hf : cycleFails env (lockPost env.latestPost
      { getInitialState with isActive := true, postShownAt := some env.now }) with
  | false =>
    obtain ⟨oA, oG, oT, oS, oP⟩ := runGeneration_ok env _ hg hf
    refine ⟨?_, oG, Or.inl ⟨⟨_, oP, ?_, ?_⟩, ?_, ?_⟩⟩
    · rw [oA]; simp [getInitialState]
    · simp [getInitialState]
    · simp [getInitialState]
    · rw [oT]; simp [getInitialState]
    · rw [oS]; simp [getInitialState]
  | true =>
    obtain ⟨oA, oG, oT, oS, oP⟩ := runGeneration_err env _ hg hf
    refine ⟨?_, oG, Or.inr ⟨?_, ?_, ?_⟩⟩
    · rw [oA]; simp [getInitialState]
    · rw [oP]; simp [getInitialState]
    · rw [oT]; simp [getInitialState]
    · rw [oS]; simp [getInitialState]

/-! ### The claims -/

/-- C1: every call to the internal generation operation made while the
scheduler's `isGenerating` flag is raised is a no-op — the state, including
the single-slot pending-turn buffer, is returned untouched, so no
interleaving of polls yields a second pending turn or a second generation
in flight. -/
theorem reentrantGenerationNoop (env : GenEnv) (s : ConversationState)
    (h : s.isGenerating = true) : runGeneration env s = s := by
  unfold runGeneration
  rw [if_pos h]

/-- Witness for C1 at a concrete in-flight state. -/
theorem reentrantGenerationNoopWitness :
    wStateGen.isGenerating = true ∧ runGeneration wEnv wStateGen = wStateGen :=
  ⟨rfl, reentrantGenerationNoop wEnv wStateGen rfl⟩

/-- C2: after `start()`, whatever each poll's clock, feed, backend text and
rejection behaviour, the turn numbers of the delivered (non-waiting) poll
results are exactly 1, 2, 3, ... — each one greater than the previous, with
no gaps and no repeats. -/
theorem deliveredTurnNumbersConsecutive (e0 : GenEnv) (envs : List GenEnv)
    (s : ConversationState) :
    consecFromB 1
      ((execTrace envs (startConversation e0 s)).1.map DialogueLine.turnNumber) = true :=
  (execTrace_spec envs (startConversation e0 s) 1 Speaker.boss
    (startConversation_spec e0 s)).1

/-- C6: across consecutive delivered turns the speaker strictly alternates
between the two identities, and the first delivered turn after `start()` is
spoken by the configured initial speaker (`boss`, Agent 1). -/
theorem speakersAlternateFromStart (e0 : GenEnv) (envs : List GenEnv)
    (s : ConversationState) :
    altFromB Speaker.boss
      ((execTrace envs (startConversation e0 s)).1.map DialogueLine.speaker) = true ∧
    ((execTrace envs (startConversation e0 s)).1.map DialogueLine.speaker).getD 0
      Speaker.boss = Speaker.boss := by
  have h := (execTrace_spec envs (startConversation e0 s) 1 Speaker.boss
    (startConversation_spec e0 s)).2
  refine ⟨h, ?_⟩
  rcases hl : (execTrace envs (startConversation e0 s)).1.map DialogueLine.speaker
    with _ | ⟨a, l⟩
  · rfl
  · rw [hl] at h
    simp only [altFromB, Bool.and_eq_true, decide_eq_true_eq] at h
    simp [h.1]

/-- C9: a poll made while the conversation is not active (for instance after
`stop()`) does not report waiting on account of the inactivity: the
conversation is first restarted — the previous state is discarded wholesale,
so history, turn count and the context lock are reset and the initial post
re-bootstrapped — and the poll proceeds with normal behaviour on the
restarted state, whose next delivered turn is number 1 by the initial
speaker. -/
theorem inactivePollRestarts (env : GenEnv) (s : ConversationState)
    (h : s.isActive = false) :
    getNextDialogue env s = pollActive env (startConversation env s) ∧
    startConversation env s = startConversation env getInitialState ∧
    NextTurnSpec (startConversation env s) 1 Speaker.boss := by
  refine ⟨?_, rfl, startConversation_spec env s⟩
  rw [getNextDialogue, if_neg (by simp [h])]

/-- Witness for C9 at the inactive initial state. -/
theorem inactivePollRestartsWitness :
    getInitialState.isActive = false ∧
    (getNextDialogue wEnv getInitialState
        = pollActive wEnv (startConversation wEnv getInitialState) ∧
      startConversation wEnv getInitialState = startConversation wEnv getInitialState ∧
      NextTurnSpec (startConversation wEnv getInitialState) 1 Speaker.boss) :=
  ⟨rfl, inactivePollRestarts wEnv getInitialState rfl⟩

/-- C10: when the awaited step the environment points at rejects during a
cycle, the `finally` still clears `isGenerating` before the cycle ends, and
the failed cycle produces no pending turn and leaves `turnCount` unchanged —
the scheduler cannot stay stuck generating, and a later poll retries. -/
theorem throwRecoveryResetsFlag (env : GenEnv) (s : ConversationState)
    (hg : s.isGenerating = false) (hf : cycleFails env s = true) :
    (runGeneration env s).isGenerating = false ∧
    (runGeneration env s).pendingResponse = s.pendingResponse ∧
    (runGeneration env s).turnCount = s.turnCount := by
  obtain ⟨_, oG, oT, _, oP⟩ := runGeneration_err env s hg hf
  exact ⟨oG, oP, oT⟩

/-- Witness for C10: the backend call rejects at a concrete state. -/
theorem throwRecoveryResetsFlagWitness :
    wState.isGenerating = false ∧ cycleFails wEnvThrow wState = true ∧
    ((runGeneration wEnvThrow wState).isGenerating = false ∧
      (runGeneration wEnvThrow wState).pendingResponse = wState.pendingResponse ∧
      (runGeneration wEnvThrow wState).turnCount = wState.turnCount) :=
  ⟨rfl, rfl, throwRecoveryResetsFlag wEnvThrow wState rfl rfl⟩

/-- C4 counterexample: at `wState40` the ledger already holds 40 entries and
the next append makes 41, exceeding the cap — yet the code retains 40
entries (`slice(-40)`), not the 20-entry window the claim states. -/
theorem historyTrimCounterexample :
    wState40.history.length = 40 ∧
    (pushedHistory wEnv wState40).length = 41 ∧
    (runGeneration wEnv wState40).history.length = 40 ∧
    ¬(runGeneration wEnv wState40).history.length = 20 := by
  refine ⟨by decide, by decide, ?_, ?_⟩
  · rw [runGeneration_history wEnv wState40 rfl rfl]
    decide
  · rw [runGeneration_history wEnv wState40 rfl rfl]
    decide

/-- C4 (amended): when an append pushes the ledger past the cap of 40 it is
trimmed in one step to the 40 most recently appended entries in insertion
order — a suffix of the appended sequence — and the ledger length never
exceeds 40 after the cap; the 20-entry window of the claim is the prompt
window of `buildConversationHistory`, not the ledger cap. -/
theorem historyCapAmended (env : GenEnv) (s : ConversationState)
    (hg : s.isGenerating = false) (ht : env.throwAt = none) :
    (runGeneration env s).history.length ≤ 40 ∧
    (runGeneration env s).history <:+ pushedHistory env s ∧
    ((pushedHistory env s).length > 40 →
      (runGeneration env s).history.length = 40) := by
  have hf : cycleFails env s = false := by simp [cycleFails, ht]
  rw [runGeneration_history env s hg hf]
  by_cases hlen : (pushedHistory env s).length > 40
  · rw [if_pos hlen]
    have hp : (pushedHistory env s).length ≤ s.history.length + 1 := by
      unfold pushedHistory
      split <;> simp
    refine ⟨?_, List.drop_suffix _ _, fun _ => ?_⟩ <;>
      simp only [List.length_drop] <;> omega
  · rw [if_neg hlen]
    exact ⟨by omega, List.suffix_refl _, fun hc => absurd hc hlen⟩

/-- Witness for the amended C4 at the full ledger. -/
theorem historyCapAmendedWitness :
    wState40.isGenerating = false ∧ wEnv.throwAt = none ∧
    ((runGeneration wEnv wState40).history.length ≤ 40 ∧
      (runGeneration wEnv wState40).history <:+ pushedHistory wEnv wState40 ∧
      ((pushedHistory wEnv wState40).length > 40 →
        (runGeneration wEnv wState40).history.length = 40)) :=
  ⟨rfl, rfl, historyCapAmended wEnv wState40 rfl rfl⟩

/-- C5 counterexample: at the concrete first-turn state `wStateNoPost` the
feed has nothing to offer, a turn is generated (`turnCount` was 0), yet its
payload carries no `newPost` — contradicting the claimed "if and only if",
whose left-to-right direction would require one on every first turn. -/
theorem newPostCounterexample :
    wStateNoPost.turnCount = 0 ∧
    ((runGeneration wEnvNoPost wStateNoPost).pendingResponse.map DialogueLine.newPost)
      = some none := by
  have hf : cycleFails wEnvNoPost wStateNoPost = false := rfl
  obtain ⟨_, _, _, _, oP⟩ := runGeneration_ok wEnvNoPost wStateNoPost rfl hf
  refine ⟨rfl, ?_⟩
  rw [oP]
  decide

/-- C5 (amended): the delivered payload carries `newPost` iff it is the
first turn and a context item was actually available to lock, or the
elapsed-time timeout fired and the refresh produced an item; in particular
an ordinary mid-timeout turn never carries `newPost`. -/
theorem newPostPresenceAmended (env : GenEnv) (s : ConversationState)
    (hg : s.isGenerating = false) (ht : env.throwAt = none) :
    ∃ d, (runGeneration env s).pendingResponse = some d ∧
      (d.newPost.isSome = true ↔
        (s.turnCount = 0 ∧ (promptPostOfCycle env s).isSome = true) ∨
        (¬s.turnCount = 0 ∧ isPostTimedOut env.now s.postShownAt = true ∧
          env.refreshPost.isSome = true)) := by
  have hf : cycleFails env s = false := by simp [cycleFails, ht]
  obtain ⟨_, _, _, _, oP⟩ := runGeneration_ok env s hg hf
  refine ⟨_, oP, ?_⟩
  show (cycleNewPost env s).isSome = true ↔ _
  unfold cycleNewPost
  by_cases hT : s.turnCount = 0 <;>
    by_cases hTO : isPostTimedOut env.now s.postShownAt = true <;>
      simp [hT, hTO]

/-- Witness for the amended C5: an ordinary mid-timeout turn, no `newPost`. -/
theorem newPostPresenceAmendedWitness :
    wState.isGenerating = false ∧ wEnv.throwAt = none ∧
    (∃ d, (runGeneration wEnv wState).pendingResponse = some d ∧
      (d.newPost.isSome = true ↔
        (wState.turnCount = 0 ∧ (promptPostOfCycle wEnv wState).isSome = true) ∨
        (¬wState.turnCount = 0 ∧ isPostTimedOut wEnv.now wState.postShownAt = true ∧
          wEnv.refreshPost.isSome = true))) :=
  ⟨rfl, rfl, newPostPresenceAmended wEnv wState rfl rfl⟩

/-- C8: when the cleaned backend text is empty the turn is still emitted —
stored as the pending response with the empty text and the next turn
number — but no entry is appended to the history ledger. -/
theorem emptyTextTurn (env : GenEnv) (s : ConversationState)
    (hg : s.isGenerating = false) (ht : env.throwAt = none)
    (he : cleanResponse env.rawResponse = "")
    (hl : s.history.length ≤ 40) :
    (∃ d, (runGeneration env s).pendingResponse = some d ∧
      d.text = "" ∧ d.turnNumber = s.turnCount + 1) ∧
    (runGeneration env s).history = s.history := by
  have hf : cycleFails env s = false := by simp [cycleFails, ht]
  obtain ⟨_, _, _, _, oP⟩ := runGeneration_ok env s hg hf
  constructor
  · exact ⟨_, oP, by simp [he], rfl⟩
  · rw [runGeneration_history env s hg hf]
    unfold pushedHistory
    rw [if_pos he, if_neg (by omega)]

/-- Witness for C8: a raw answer that cleans to the empty string. -/
theorem emptyTextTurnWitness :
    wState.isGenerating = false ∧ wEnvEmpty.throwAt = none ∧
    cleanResponse wEnvEmpty.rawResponse = "" ∧ wState.history.length ≤ 40 ∧
    ((∃ d, (runGeneration wEnvEmpty wState).pendingResponse = some d ∧
      d.text = "" ∧ d.turnNumber = wState.turnCount + 1) ∧
    (runGeneration wEnvEmpty wState).history = wState.history) :=
  ⟨rfl, rfl, by decide, by decide,
    emptyTextTurn wEnvEmpty wState rfl rfl (by decide) (by decide)⟩

theorem list_getD_mem {α : Type} (l : List α) (i : Nat) (d : α)
    (h : i < l.length) : l.getD i d ∈ l := by
  induction l generalizing i with
  | nil => simp at h
  | cons a t ih =>
    cases i with
    | zero => simp [List.getD]
    | succ j => simpa [List.getD] using Or.inr (ih j (by simpa using h))

/-- C7: every failing backend round trip — no key, non-OK status, parse
error, missing or empty content — is answered with a line from the persona's
small fixed mock set (the functions are total: no error reaches the
caller), the scheduler-side cleanup leaves that line unchanged, and a cycle
fed the fallback still delivers a turn with the normally incremented turn
number carrying the fallback as its text. -/
theorem backendFailureFallback (o : BackendOutcome) (nm : String) (r : Nat)
    (env : GenEnv) (s : ConversationState)
    (hfail : backendFailed o = true) (hg : s.isGenerating = false)
    (ht : env.throwAt = none) :
    aiGenerateResponse o nm r ∈ mockResponsesFor nm ∧
    cleanResponse (aiGenerateResponse o nm r) = aiGenerateResponse o nm r ∧
    ∃ d, (runGeneration { env with rawResponse := aiGenerateResponse o nm r }
        s).pendingResponse = some d ∧
      d.turnNumber = s.turnCount + 1 ∧
      d.text = aiGenerateResponse o nm r := by
  have hmock : aiGenerateResponse o nm r = getMockResponse nm r := by
    cases o with
    | content raw =>
      have hr : jsTrim raw = "" := by simpa [backendFailed] using hfail
      simp [aiGenerateResponse, hr]
    | noApiKey => rfl
    | httpError => rfl
    | parseError => rfl
    | noContent => rfl
  have hlen : (mockResponsesFor nm).length = 5 := by
    unfold mockResponsesFor
    split_ifs <;> rfl
  have hpos : 0 < (mockResponsesFor nm).length := by rw [hlen]; omega
  have hmem : getMockResponse nm r ∈ mockResponsesFor nm := by
    unfold getMockResponse
    exact list_getD_mem _ _ _ (Nat.mod_lt _ hpos)
  have hclean : cleanResponse (getMockResponse nm r) = getMockResponse nm r := by
    have h1 : ∀ m ∈ agent1Mock, cleanResponse m = m := by decide
    have h2 : ∀ m ∈ agent2Mock, cleanResponse m = m := by decide
    have hmem' := hmem
    unfold mockResponsesFor at hmem'
    split_ifs at hmem'
    · exact h1 _ hmem'
    · exact h2 _ hmem'
    · exact h1 _ hmem'
  have hf : cycleFails { env with rawResponse := aiGenerateResponse o nm r } s = false := by
    simp [cycleFails, ht]
  obtain ⟨_, _, _, _, oP⟩ :=
    runGeneration_ok { env with rawResponse := aiGenerateResponse o nm r } s hg hf
  refine ⟨hmock ▸ hmem, hmock ▸ hclean, _, oP, rfl, ?_⟩
  show cleanResponse (aiGenerateResponse o nm r) = aiGenerateResponse o nm r
  rw [hmock]
  exact hclean

/-- Witness for C7: an HTTP failure on a concrete mid-conversation turn. -/
theorem backendFailureFallbackWitness :
    backendFailed BackendOutcome.httpError = true ∧
    wState.isGenerating = false ∧ wEnv.throwAt = none ∧
    (aiGenerateResponse BackendOutcome.httpError "Agent 1" 0
        ∈ mockResponsesFor "Agent 1" ∧
      cleanResponse (aiGenerateResponse BackendOutcome.httpError "Agent 1" 0)
        = aiGenerateResponse BackendOutcome.httpError "Agent 1" 0 ∧
      ∃ d, (runGeneration
          { wEnv with rawResponse := aiGenerateResponse BackendOutcome.httpError "Agent 1" 0 }
          wState).pendingResponse = some d ∧
        d.turnNumber = wState.turnCount + 1 ∧
        d.text = aiGenerateResponse BackendOutcome.httpError "Agent 1" 0) :=
  ⟨rfl, rfl, rfl,
    backendFailureFallback BackendOutcome.httpError "Agent 1" 0 wEnv wState rfl rfl rfl⟩

/-- C3: along one non-rejecting generation cycle, adjacent lock observations
that both see the lock held always carry the same snapshot — the only
replacement happens inside `advancePost`, after the explicit unlock; the
observation right after step 1 is the item the prompt is built from
(`promptPostOfCycle`), it is unchanged through the prompt build and the
backend call, and the trace's final observation is exactly the lock state
`runGeneration` leaves behind. The well-formedness hypothesis (`postLocked`
only with a snapshot present) holds in every reachable state. -/
theorem lockedContextStable (env : GenEnv) (s : ConversationState)
    (hg : s.isGenerating = false) (ht : env.throwAt = none)
    (hwf : s.lockedPost = none → s.postLocked = false) :
    adjStable (lockTrace env s) = true ∧
    (lockTrace env s)[1]? = some ((ensureLocked env s).postLocked, promptPostOfCycle env s) ∧
    (lockTrace env s)[2]? = (lockTrace env s)[1]? ∧
    (lockTrace env s)[3]? = (lockTrace env s)[1]? ∧
    (lockTrace env s).getLast? = some (lockObs (runGeneration env s)) := by
  have hf : cycleFails env s = false := by simp [cycleFails, ht]
  rw [runGeneration_eq_core env s hg hf]
  unfold lockTrace cycleCore
  rw [if_neg (by simp [hg])]
  dsimp only
  rcases hLP : s.lockedPost with _ | q
  · have hpl : s.postLocked = false := hwf hLP
    rcases hLat : env.latestPost with _ | lp <;>
      rcases hRef : env.refreshPost with _ | rp <;>
        by_cases hT : s.turnCount = 0 <;>
          by_cases hTO : isPostTimedOut env.now s.postShownAt = true <;>
            by_cases hC : cleanResponse env.rawResponse = "" <;>
              simp [adjStable, lockObs, promptPostOfCycle, ensureLocked, lockPost,
                advancePostPre, advancePostTail, hLP, hpl, hLat, hRef, hT, hTO, hC]
  · rcases hLat : env.latestPost with _ | lp <;>
      rcases hRef : env.refreshPost with _ | rp <;>
        by_cases hT : s.turnCount = 0 <;>
          by_cases hTO : isPostTimedOut env.now s.postShownAt = true <;>
            by_cases hC : cleanResponse env.rawResponse = "" <;>
              simp [adjStable, lockObs, promptPostOfCycle, ensureLocked, lockPost,
                advancePostPre, advancePostTail, hLP, hLat, hRef, hT, hTO, hC]

/-- Witness for C3 at a concrete locked mid-conversation state. -/
theorem lockedContextStableWitness :
    wState.isGenerating = false ∧ wEnv.throwAt = none ∧
    (adjStable (lockTrace wEnv wState) = true ∧
      (lockTrace wEnv wState)[1]?
        = some ((ensureLocked wEnv wState).postLocked, promptPostOfCycle wEnv wState) ∧
      (lockTrace wEnv wState)[2]? = (lockTrace wEnv wState)[1]? ∧
      (lockTrace wEnv wState)[3]? = (lockTrace wEnv wState)[1]? ∧
      (lockTrace wEnv wState).getLast? = some (lockObs (runGeneration wEnv wState))) :=
  ⟨rfl, rfl, lockedContextStable wEnv wState rfl rfl (by decide)⟩
